import Mathlib

/-!
Verification development for the Bangazon e-commerce API.

The Django models and view functions relevant to the cart/order lifecycle,
the product catalog query engine and the favorites bookkeeping are embedded
shallowly: every database table becomes a list of rows, every ORM call
(`get`, `filter`, `save`, `create`, `delete`) becomes an explicit function
on that state, and every request handler becomes a function from the
pre-state and the request data to the post-state and an HTTP status code.
Machine dates are abstracted to natural numbers (only presence and equality
of timestamps matter to the properties below); prices are rationals (the
bounds 0 and 17500 and all comparisons in the source are exact).
-/

namespace Bangazon

/-- Modelled from the spec: the Payment model file is not under `src/`;
the spec's data-model table gives it a merchant name, an account number,
an expiration date and an owning customer. -/
structure Payment where
  id : Nat
  merchant_name : String
  account_number : String
  expiration_date : Nat
  customer : Nat
  deriving Repr, DecidableEq

/-- Source `bangazonapi/models/order.py`: customer FK, nullable payment FK
(`payment_type`), auto `created_date`, nullable `completed_date`. -/
structure Order where
  id : Nat
  customer : Nat
  payment_type : Option Nat
  created_date : Nat
  completed_date : Option Nat
  deriving Repr, DecidableEq

/-- Modelled from the spec: the OrderProduct (line item) model file is not
under `src/`; the spec's data-model table gives it an order ref and a
product ref ("belongs to exactly one order"). -/
structure OrderProduct where
  id : Nat
  order : Nat
  product : Nat
  deriving Repr, DecidableEq

/-- Modelled from the spec: the ProductCategory model file is not under
`src/`; it is a named category row. -/
structure ProductCategory where
  id : Nat
  name : String
  deriving Repr, DecidableEq

/-- Modelled from the spec: the ProductRating model file is not under
`src/`; the spec's data-model table gives it a product ref, a customer ref
and a rating value. -/
structure ProductRating where
  id : Nat
  product : Nat
  customer : Nat
  rating : Int
  deriving Repr, DecidableEq

/-- Source `bangazonapi/models/product.py`: the stored columns of `Product`
(`number_sold`, `average_rating`, `can_be_rated`, `is_liked` are Python
`@property` computations, not columns). -/
structure Product where
  id : Nat
  name : String
  customer : Nat
  price : Rat
  description : String
  quantity : Int
  created_date : Nat
  category : Nat
  location : String
  store : Option Nat
  deriving Repr, DecidableEq

/-- Source `bangazonapi/models/favoriteproduct.py`: `user` is a `OneToOneField`
(unique per user at the database level), `product` a plain FK, plus a
`unique_together ('user', 'product')` constraint. -/
structure FavoriteProduct where
  id : Nat
  user : Nat
  product : Nat
  deriving Repr, DecidableEq

/-- The database state: one list of rows per table touched by the
embedded operations. -/
structure DB where
  orders : List Order
  lineitems : List OrderProduct
  payments : List Payment
  products : List Product
  categories : List ProductCategory
  ratings : List ProductRating
  favorite_products : List FavoriteProduct
  deriving Repr, DecidableEq

/-- Outcome of a Django `Model.objects.get(...)` call: zero rows raise
`DoesNotExist`, more than one raises `MultipleObjectsReturned`. -/
inductive OrmError where
  | doesNotExist
  | multipleReturned
  deriving Repr, DecidableEq

/-- Django `Model.objects.get` over a row list: the unique row matching the
predicate, or the corresponding ORM exception. -/
def getSingle {α : Type} (rows : List α) (p : α → Bool) : Except OrmError α :=
  match rows.filter p with
  | [] => .error .doesNotExist
  | [r] => .ok r
  | _ :: _ :: _ => .error .multipleReturned

/-- True when some order row with this id carries a non-null payment ref;
this is the join condition `order__payment_type__isnull=False`. -/
def orderPaid (db : DB) (oid : Nat) : Bool :=
  db.orders.any (fun o => o.id == oid && o.payment_type.isSome)

/-- Source `Product.number_sold` (models/product.py): count of `OrderProduct`
rows for this product whose order has a non-null `payment_type`. -/
def number_sold (db : DB) (pid : Nat) : Nat :=
  (db.lineitems.filter (fun li => li.product == pid && orderPaid db li.order)).length

/-- Python's `/` on the accumulated total and the rating count: raises
`ZeroDivisionError` (here: `.error ()`) when the divisor is zero. -/
def pyDiv (a b : Rat) : Except Unit Rat :=
  if b = 0 then .error () else .ok (a / b)

/-- Source `Product.average_rating` (models/product.py): sum the rating rows of
the product with a fold, divide by their count, and catch
`ZeroDivisionError` by returning 0. -/
def average_rating (db : DB) (pid : Nat) : Rat :=
  let rs := db.ratings.filter (fun r => r.product == pid)
  let total : Int := rs.foldl (fun acc r => acc + r.rating) 0
  match pyDiv (total : Rat) (rs.length : Rat) with
  | .ok avg => avg
  | .error _ => 0

/-! ## Cart operations (`Profile.cart` in views/profile.py) -/

/-- Result of a request handler: the post-state and the HTTP status. -/
structure HandlerResult where
  db : DB
  status : Nat
  deriving Repr, DecidableEq

/-- Second half of the cart `POST` branch: look the product up by pk
(an uncaught `DoesNotExist` is a 500) and save a new line item attached
to the given order. -/
def cartInsertItem (db : DB) (o : Order) (product_id : Nat)
    (fresh_item_id : Nat) : HandlerResult :=
  match getSingle db.products (fun p => p.id == product_id) with
  | .error _ => ⟨db, 500⟩
  | .ok p =>
      ⟨{ db with lineitems := db.lineitems ++ [⟨fresh_item_id, o.id, p.id⟩] }, 200⟩

/-- Source `Profile.cart` POST branch (views/profile.py): fetch the caller's open
order (`payment_type=None`); on `DoesNotExist` save a fresh order for the
caller first; then insert the line item.  Only `DoesNotExist` is caught —
`MultipleObjectsReturned` escapes as a 500 before any write. -/
def cart_post (db : DB) (customer : Nat) (product_id : Nat)
    (now : Nat) (fresh_order_id fresh_item_id : Nat) : HandlerResult :=
  match getSingle db.orders (fun o => o.customer == customer && o.payment_type.isNone) with
  | .ok o => cartInsertItem db o product_id fresh_item_id
  | .error .multipleReturned => ⟨db, 500⟩
  | .error .doesNotExist =>
      let newOrder : Order := ⟨fresh_order_id, customer, none, now, none⟩
      cartInsertItem { db with orders := db.orders ++ [newOrder] }
        newOrder product_id fresh_item_id

/-- Source `Profile.cart` DELETE branch (views/profile.py): fetch the caller's open
order, delete its line items, then delete the order row itself; a missing
open order is a 404. -/
def cart_delete (db : DB) (customer : Nat) : HandlerResult :=
  match getSingle db.orders (fun o => o.customer == customer && o.payment_type.isNone) with
  | .error .doesNotExist => ⟨db, 404⟩
  | .error .multipleReturned => ⟨db, 500⟩
  | .ok o =>
      ⟨{ db with
          lineitems := db.lineitems.filter (fun li => !(li.order == o.id)),
          orders := db.orders.filter (fun x => !(x.id == o.id)) }, 204⟩

/-! ## Order completion (`Orders.complete` in views/order.py) -/

/-- The request body of `PUT /orders/:id/complete`.  The handler reads
only `payment_type`; a client-supplied `completed_date` (the tests send
one) is ignored. -/
structure CompleteRequest where
  payment_type : Nat
  completed_date : Option Nat
  deriving Repr, DecidableEq

/-- Replace the order row with this id (Django `order.save()` writes the
row keyed by pk). -/
def saveOrder (db : DB) (oid : Nat) (f : Order → Order) : DB :=
  { db with orders := db.orders.map (fun o => if o.id == oid then f o else o) }

/-- Source `Orders.complete` (views/order.py): fetch the order by pk and caller
(no check of its current state), fetch the payment by pk alone (no check
of its owner), set `payment_type` and `completed_date := datetime.now()`,
save, return 204.  `Order.DoesNotExist` is a 404, `Payment.DoesNotExist`
a 400. -/
def orders_complete (db : DB) (customer : Nat) (pk : Nat)
    (req : CompleteRequest) (now : Nat) : HandlerResult :=
  match getSingle db.orders (fun o => o.id == pk && o.customer == customer) with
  | .error .doesNotExist => ⟨db, 404⟩
  | .error .multipleReturned => ⟨db, 500⟩
  | .ok order =>
      match getSingle db.payments (fun p => p.id == req.payment_type) with
      | .error .doesNotExist => ⟨db, 400⟩
      | .error .multipleReturned => ⟨db, 500⟩
      | .ok p =>
          ⟨saveOrder db order.id
            (fun o => { o with payment_type := some p.id, completed_date := some now }), 204⟩

/-! ## Product catalog queries (`Products.list` in views/product.py) -/

/-- The stored column names of the `Product` model (models/product.py) —
the names a queryset `filter(...)` keyword can resolve.  `number_sold` is
a Python `@property` and deliberately absent. -/
def productFieldNames : List String :=
  ["id", "name", "customer", "price", "description", "quantity",
   "created_date", "category", "user", "location", "image_path", "store"]

/-- A queryset `filter` raises `FieldError` when its lookup keyword does
not resolve to a model field. -/
inductive QueryError where
  | fieldError
  deriving Repr, DecidableEq

/-- Query parameters of `GET /products` as read by `Products.list`. -/
structure ListParams where
  store_id : Option Nat
  category_id : Option Nat
  min_price : Option Rat
  max_price : Option Rat
  quantity : Option Int
  number_sold : Option Nat
  location : Option String
  direction : Option String
  sold_only : Bool
  deriving Repr, DecidableEq

/-- One optional queryset `filter(field__lookup=v)` step: absent parameter
keeps the queryset; a present one first resolves the root field name
against the model's columns (`FieldError` otherwise), then filters. -/
def applyOptFilter {α : Type} (field : String) (oparam : Option α)
    (pred : α → Product → Bool) (ps : List Product) :
    Except QueryError (List Product) :=
  match oparam with
  | none => .ok ps
  | some v =>
      if productFieldNames.contains field then .ok (ps.filter (pred v))
      else .error .fieldError

/-- Case-insensitive substring test on character lists, for the
`location__icontains` lookup. -/
def containsChars (hay pat : List Char) : Bool :=
  match hay with
  | [] => pat.isEmpty
  | _ :: rest => pat.isPrefixOf hay || containsChars rest pat

/-- Insertion into a price-sorted list (ascending when `asc`). -/
def insertByPrice (asc : Bool) (p : Product) : List Product → List Product
  | [] => [p]
  | q :: qs =>
      if (if asc then decide (p.price ≤ q.price) else decide (q.price ≤ p.price))
      then p :: q :: qs
      else q :: insertByPrice asc p qs

/-- Django `order_by` on price, ascending or descending, as a stable insertion sort. -/
def sortByPrice (asc : Bool) (ps : List Product) : List Product :=
  ps.foldr (insertByPrice asc) []

/-- Source `Products.list` (views/product.py): start from all products and apply,
in source order, the optional `store`, `sold_only`, `category`, price
range, `quantity`, `number_sold` and `location` filters, then the optional
price sort.  Each `filter` call resolves its lookup root against the
model's columns; `number_sold` is not a column, so that step raises
`FieldError` (surfacing as an unhandled 500). -/
def products_list (db : DB) (ps : ListParams) : Except QueryError (List Product) :=
  (applyOptFilter "store" ps.store_id (fun v p => p.store == some v) db.products).bind
  (fun l1 => (if ps.sold_only
      then .ok (l1.filter (fun p => 0 < number_sold db p.id))
      else .ok l1 : Except QueryError (List Product)).bind
  (fun l2 => (applyOptFilter "category" ps.category_id (fun v p => p.category == v) l2).bind
  (fun l3 => (applyOptFilter "price" ps.min_price (fun v p => decide (v ≤ p.price)) l3).bind
  (fun l4 => (applyOptFilter "price" ps.max_price (fun v p => decide (p.price ≤ v)) l4).bind
  (fun l5 => (applyOptFilter "quantity" ps.quantity (fun v p => decide (v ≤ p.quantity)) l5).bind
  (fun l6 => (applyOptFilter "number_sold" ps.number_sold
      (fun v p => decide (v ≤ number_sold db p.id)) l6).bind
  (fun l7 => (applyOptFilter "location" ps.location
      (fun v p => containsChars p.location.toLower.toList v.toLower.toList) l7).bind
  (fun l8 => .ok (match ps.direction with
      | some "asc" => sortByPrice true l8
      | some "desc" => sortByPrice false l8
      | _ => l8)))))))))

/-! ## Product creation (`Products.create` in views/product.py) -/

/-- The validator bounds declared on `Product.price` in models/product.py:
`MinValueValidator(0.00)` and `MaxValueValidator(17500.00)`. -/
def priceValidatorsHold (price : Rat) : Prop :=
  0 ≤ price ∧ price ≤ 17500

/-- The validator bound declared on `Product.quantity` in
models/product.py: `MinValueValidator(0)`. -/
def quantityValidatorHolds (q : Int) : Prop :=
  0 ≤ q

instance (price : Rat) : Decidable (priceValidatorsHold price) := by
  unfold priceValidatorsHold; infer_instance

instance (q : Int) : Decidable (quantityValidatorHolds q) := by
  unfold quantityValidatorHolds; infer_instance

/-- Request body of `POST /products` as read by `Products.create`. -/
structure ProductCreateRequest where
  name : String
  price : Rat
  description : String
  quantity : Int
  location : String
  categoryId : Nat
  deriving Repr, DecidableEq

/-- Source `Products.create` (views/product.py): copy the request fields onto a
new `Product`, resolve the category by pk (an uncaught `DoesNotExist` is a
500), and call `save()` — which, being a plain model save with no
`full_clean()`, runs none of the declared field validators — then 201. -/
def products_create (db : DB) (customer : Nat) (req : ProductCreateRequest)
    (fresh_id : Nat) (now : Nat) : HandlerResult :=
  match getSingle db.categories (fun c => c.id == req.categoryId) with
  | .error _ => ⟨db, 500⟩
  | .ok cat =>
      let newProduct : Product :=
        ⟨fresh_id, req.name, customer, req.price, req.description,
         req.quantity, now, cat.id, req.location, none⟩
      ⟨{ db with products := db.products ++ [newProduct] }, 201⟩

/-! ## Product likes (`Products.like_product` in views/product.py) -/

/-- Outcome of `POST /products/:id/like`. -/
inductive LikeOutcome where
  | notFound
  | alreadyLiked (favorite_id : Nat)
  | created
  | integrityViolation
  deriving Repr, DecidableEq

/-- Database-level insert into `FavoriteProduct`: the `OneToOneField` on
`user` imposes a unique constraint on the `user` column, so an insert for
a user who already has any row raises `IntegrityError`. -/
def favoriteInsert (db : DB) (row : FavoriteProduct) : Except Unit DB :=
  if db.favorite_products.any (fun f => f.user == row.user) then .error ()
  else .ok { db with favorite_products := db.favorite_products ++ [row] }

/-- Source `Products.like_product` (views/product.py): 404 when the product pk
does not resolve; if a `FavoriteProduct` row for this user and product
already exists, answer 200 "already liked" with its id and write nothing;
otherwise create the row (an `IntegrityError` from the unique `user`
column escapes as a 500) and answer 201. -/
def like_product (db : DB) (user : Nat) (pk : Nat) (fresh_id : Nat) :
    DB × LikeOutcome :=
  match getSingle db.products (fun p => p.id == pk) with
  | .error _ => (db, .notFound)
  | .ok product =>
      match (db.favorite_products.filter
          (fun f => f.user == user && f.product == product.id)).head? with
      | some f => (db, .alreadyLiked f.id)
      | none =>
          match favoriteInsert db ⟨fresh_id, user, product.id⟩ with
          | .error _ => (db, .integrityViolation)
          | .ok db' => (db', .created)

/-! ## Spec-side reference definitions

These follow the spec's words, to be compared with the source embeddings
above. -/

/-- The spec's words for the sold count: "count of line items whose order
has a non-null payment ref". -/
def specSoldCount (db : DB) (pid : Nat) : Nat :=
  db.lineitems.countP (fun li =>
    decide (li.product = pid ∧ ∃ o ∈ db.orders, o.id = li.order ∧ o.payment_type ≠ none))

/-- The spec's words for the average rating: "arithmetic mean of
associated rating rows, defined as 0 when no ratings exist". -/
def specAverageRating (db : DB) (pid : Nat) : Rat :=
  let rs := db.ratings.filter (fun r => r.product == pid)
  if rs.length = 0 then 0
  else (rs.map (fun r => (r.rating : Rat))).sum / (rs.length : Rat)

/-- The number of open (null payment ref) orders a customer has. -/
def openOrderCount (db : DB) (c : Nat) : Nat :=
  db.orders.countP (fun o => o.customer == c && o.payment_type.isNone)

/-- The single-open-order invariant of the spec: "at most one order with
null payment ref exists" for every customer. -/
def SingleOpenOrder (db : DB) : Prop :=
  ∀ c : Nat, openOrderCount db c ≤ 1

instance (db : DB) : Decidable (SingleOpenOrder db) := by
  unfold SingleOpenOrder openOrderCount
  exact decidable_of_iff
    (∀ o ∈ db.orders, db.orders.countP
      (fun x => x.customer == o.customer && x.payment_type.isNone) ≤ 1) (by
    constructor
    · intro h c
      by_cases hex : ∃ o ∈ db.orders,
          (o.customer == c && o.payment_type.isNone) = true
      · obtain ⟨o, ho, hoc⟩ := hex
        have : o.customer = c := by
          simpa using (Bool.and_elim_left hoc)
        exact this ▸ h o ho
      · have : db.orders.countP
            (fun x => x.customer == c && x.payment_type.isNone) = 0 := by
          rw [List.countP_eq_zero]
          intro a ha hcontra
          exact hex ⟨a, ha, hcontra⟩
        omega
    · intro h o _
      exact h o.customer)

/-! ## Helper lemmas -/

theorem getSingle_eq_doesNotExist {α : Type} {rows : List α} {p : α → Bool}
    (h : getSingle rows p = .error .doesNotExist) : rows.filter p = [] := by
  unfold getSingle at h
  rcases hf : rows.filter p with _ | ⟨a, _ | ⟨b, t⟩⟩ <;> rw [hf] at h <;> simp_all

theorem getSingle_eq_ok {α : Type} {rows : List α} {p : α → Bool} {r : α}
    (h : getSingle rows p = .ok r) : rows.filter p = [r] := by
  unfold getSingle at h
  rcases hf : rows.filter p with _ | ⟨a, _ | ⟨b, t⟩⟩ <;> rw [hf] at h <;> simp_all

theorem cartInsertItem_orders (db : DB) (o : Order) (pid fi : Nat) :
    (cartInsertItem db o pid fi).db.orders = db.orders := by
  unfold cartInsertItem
  cases getSingle db.products (fun p => p.id == pid) <;> rfl

theorem openOrderCount_orders_eq {db db' : DB} (h : db'.orders = db.orders)
    (c : Nat) : openOrderCount db' c = openOrderCount db c := by
  unfold openOrderCount; rw [h]

theorem cart_post_preserves (db : DB) (cu pid now foid fiid : Nat)
    (hInv : SingleOpenOrder db) :
    SingleOpenOrder (cart_post db cu pid now foid fiid).db := by
  unfold cart_post
  cases hg : getSingle db.orders
      (fun o => o.customer == cu && o.payment_type.isNone) with
  | ok o =>
      intro c
      rw [openOrderCount_orders_eq (cartInsertItem_orders db o pid fiid) c]
      exact hInv c
  | error e =>
      cases e with
      | multipleReturned => exact hInv
      | doesNotExist =>
          intro c
          have hfil := getSingle_eq_doesNotExist hg
          rw [openOrderCount_orders_eq (cartInsertItem_orders _ _ pid fiid) c]
          unfold openOrderCount
          simp only [List.countP_append]
          by_cases hc : c = cu
          · subst hc
            have h0 : db.orders.countP
                (fun o => o.customer == c && o.payment_type.isNone) = 0 := by
              rw [List.countP_eq_length_filter, hfil]; rfl
            simp [h0, List.countP_cons]
          · have h1 : (List.countP
                (fun o => o.customer == c && o.payment_type.isNone)
                [(⟨foid, cu, none, now, none⟩ : Order)]) = 0 := by
              simp [List.countP_cons, Ne.symm hc]
            rw [h1]
            simpa using hInv c

theorem orders_complete_preserves (db : DB) (cu pk : Nat)
    (req : CompleteRequest) (now : Nat) (hInv : SingleOpenOrder db) :
    SingleOpenOrder (orders_complete db cu pk req now).db := by
  unfold orders_complete
  cases hg : getSingle db.orders (fun o => o.id == pk && o.customer == cu) with
  | error e => cases e <;> exact hInv
  | ok order =>
      cases hp : getSingle db.payments (fun p => p.id == req.payment_type) with
      | error e => cases e <;> exact hInv
      | ok p =>
          intro c
          unfold openOrderCount saveOrder
          simp only [List.countP_map]
          refine le_trans (le_trans (le_of_eq rfl) ?_) (hInv c)
          apply List.countP_mono_left
          intro a _ ha
          by_cases hid : (a.id == order.id) = true
          · simp [Function.comp, hid] at ha
          · simpa [Function.comp, hid] using ha

theorem cart_delete_preserves (db : DB) (cu : Nat)
    (hInv : SingleOpenOrder db) :
    SingleOpenOrder (cart_delete db cu).db := by
  unfold cart_delete
  cases hg : getSingle db.orders
      (fun o => o.customer == cu && o.payment_type.isNone) with
  | error e => cases e <;> exact hInv
  | ok o =>
      intro c
      unfold openOrderCount
      simp only [List.countP_filter]
      refine le_trans ?_ (hInv c)
      apply List.countP_mono_left
      intro a _ ha
      exact (Bool.and_elim_left ha)

/-- Sample state: customer 1 owns open order 1 (one line item for
product 1) and a completed order 2; products 1 and 2 and payments exist. -/
def sampleDb : DB :=
  { orders :=
      [⟨1, 1, none, 3, none⟩, ⟨2, 1, some 7, 1, some 2⟩],
    lineitems := [⟨1, 1, 1⟩, ⟨2, 2, 2⟩],
    payments := [⟨7, "Visa", "123", 9, 1⟩, ⟨8, "Amex", "456", 9, 2⟩],
    products :=
      [⟨1, "Kite", 1, 15, "flies", 60, 1, 1, "Pittsburgh", none⟩,
       ⟨2, "Saab", 2, 1297, "car", 2, 1, 2, "Vratsa", none⟩],
    categories := [⟨1, "Toys"⟩, ⟨2, "Auto"⟩],
    ratings := [],
    favorite_products := [] }

/-- C1: on any state where every customer has at most one open (null
payment ref) order, each of the three operations — adding a line item to
the cart (which lazily creates an order), completing an order, and
clearing the cart — leaves a state where every customer still has at most
one open order. -/
theorem C1_operations_preserve_single_open_order
    (db : DB) (cu pid pk : Nat) (req : CompleteRequest)
    (now foid fiid : Nat) (hInv : SingleOpenOrder db) :
    SingleOpenOrder (cart_post db cu pid now foid fiid).db ∧
    SingleOpenOrder (orders_complete db cu pk req now).db ∧
    SingleOpenOrder (cart_delete db cu).db :=
  ⟨cart_post_preserves db cu pid now foid fiid hInv,
   orders_complete_preserves db cu pk req now hInv,
   cart_delete_preserves db cu hInv⟩

/-- C1 witness: the sample state satisfies the invariant, and the three
operations (run on it with concrete arguments) preserve it. -/
theorem C1_operations_preserve_single_open_order_witness :
    SingleOpenOrder sampleDb ∧
    (SingleOpenOrder (cart_post sampleDb 1 2 6 3 3).db ∧
     SingleOpenOrder (orders_complete sampleDb 1 1 ⟨7, none⟩ 6).db ∧
     SingleOpenOrder (cart_delete sampleDb 1).db) :=
  ⟨by decide,
   C1_operations_preserve_single_open_order sampleDb 1 2 1 ⟨7, none⟩ 6 3 3
     (by decide)⟩

/-! ## Order completion: C2, C4 -/

theorem complete_sets_payment_and_date
    (db : DB) (cu pk : Nat) (req : CompleteRequest) (now : Nat)
    (order : Order) (p : Payment)
    (hord : getSingle db.orders (fun o => o.id == pk && o.customer == cu) = .ok order)
    (hpay : getSingle db.payments (fun q => q.id == req.payment_type) = .ok p) :
    (orders_complete db cu pk req now).status = 204 ∧
    ∀ o' ∈ (orders_complete db cu pk req now).db.orders,
      o'.id = pk → o'.payment_type = some p.id ∧ o'.completed_date = some now := by
  have hfl := getSingle_eq_ok hord
  have hmem : order ∈ db.orders.filter (fun o => o.id == pk && o.customer == cu) :=
    hfl ▸ List.mem_singleton.mpr rfl
  have hpred := List.of_mem_filter hmem
  have hpk : order.id = pk := by
    have := Bool.and_elim_left hpred
    simpa using this
  unfold orders_complete
  rw [hord, hpay]
  refine ⟨rfl, ?_⟩
  intro o' ho' hid
  unfold saveOrder at ho'
  simp only [List.mem_map] at ho'
  obtain ⟨a, ha, hga⟩ := ho'
  by_cases h : (a.id == order.id) = true
  · rw [if_pos h] at hga
    subst hga
    exact ⟨rfl, rfl⟩
  · rw [if_neg h] at hga
    subst hga
    rw [hpk] at h
    exact absurd (by simpa using hid) h

/-- C2 counterexample: in the sample state, order 2 of customer 1 is
already completed (payment ref 7, completion date 2); a second completion
request with payment 8 returns 204 — not a state-conflict error — and
overwrites both the payment reference and the completion date. -/
theorem C2_second_completion_counterexample :
    (orders_complete sampleDb 1 2 ⟨8, none⟩ 99).status = 204 ∧
    sampleDb.orders.filter (fun o => o.id == 2) = [⟨2, 1, some 7, 1, some 2⟩] ∧
    (orders_complete sampleDb 1 2 ⟨8, none⟩ 99).db.orders.filter (fun o => o.id == 2)
      = [⟨2, 1, some 8, 1, some 99⟩] := by
  decide

/-- C2 amended: completing an order with a valid payment sets
`completed_date` and `payment_type` and returns 204; but the handler never
checks the order's current state, so a second completion attempt on an
already-completed order (hypothesis `hdone`) also returns 204 and
overwrites the payment reference and completion date rather than failing
with a state-conflict error. -/
theorem C2_completion_not_guarded
    (db : DB) (cu pk : Nat) (req : CompleteRequest) (now : Nat)
    (order : Order) (p : Payment)
    (hord : getSingle db.orders (fun o => o.id == pk && o.customer == cu) = .ok order)
    (_hdone : order.payment_type.isSome)
    (hpay : getSingle db.payments (fun q => q.id == req.payment_type) = .ok p) :
    (orders_complete db cu pk req now).status = 204 ∧
    ∀ o' ∈ (orders_complete db cu pk req now).db.orders,
      o'.id = pk → o'.payment_type = some p.id ∧ o'.completed_date = some now :=
  complete_sets_payment_and_date db cu pk req now order p hord hpay

/-- C2 witness: the already-completed order 2 of the sample state is
"completed" a second time with payment 8 at server time 99; the call
succeeds and the row is overwritten. -/
theorem C2_completion_not_guarded_witness :
    (orders_complete sampleDb 1 2 ⟨8, none⟩ 99).status = 204 ∧
    ∀ o' ∈ (orders_complete sampleDb 1 2 ⟨8, none⟩ 99).db.orders,
      o'.id = 2 → o'.payment_type = some 8 ∧ o'.completed_date = some 99 :=
  C2_completion_not_guarded sampleDb 1 2 ⟨8, none⟩ 99
    ⟨2, 1, some 7, 1, some 2⟩ ⟨8, "Amex", "456", 9, 2⟩ rfl rfl rfl

/-- C4 counterexample: payment 8 belongs to customer 2, yet customer 1
successfully completes their own order 1 with it — the handler looks the
payment up by id alone and never checks its owner. -/
theorem C4_foreign_payment_counterexample :
    (orders_complete sampleDb 1 1 ⟨8, none⟩ 50).status = 204 ∧
    (∀ p ∈ sampleDb.payments, p.id = 8 → p.customer ≠ 1) := by
  decide

/-- C4 amended: the complete operation succeeds whenever the referenced
payment exists, with no condition on which customer owns it (the payment
`p` below may belong to anyone); the completion timestamp it records is
the server clock value `now`, and the result is entirely independent of
the client-supplied `completed_date` field. -/
theorem C4_payment_owner_unchecked_server_clock
    (db : DB) (cu pk pt : Nat) (cd : Option Nat) (now : Nat)
    (order : Order) (p : Payment)
    (hord : getSingle db.orders (fun o => o.id == pk && o.customer == cu) = .ok order)
    (hpay : getSingle db.payments (fun q => q.id == pt) = .ok p) :
    (orders_complete db cu pk ⟨pt, cd⟩ now).status = 204 ∧
    (∀ o' ∈ (orders_complete db cu pk ⟨pt, cd⟩ now).db.orders,
       o'.id = pk → o'.completed_date = some now) ∧
    orders_complete db cu pk ⟨pt, cd⟩ now = orders_complete db cu pk ⟨pt, none⟩ now := by
  obtain ⟨hs, hrow⟩ := complete_sets_payment_and_date db cu pk ⟨pt, cd⟩ now order p hord hpay
  exact ⟨hs, fun o' ho' hid => (hrow o' ho' hid).2, rfl⟩

/-- C4 witness: customer 1 completes open order 1 using customer 2's
payment 8 with a client-supplied completed_date of 123; the call returns
204, records server time 50, and the client date is ignored. -/
theorem C4_payment_owner_unchecked_server_clock_witness :
    (orders_complete sampleDb 1 1 ⟨8, some 123⟩ 50).status = 204 ∧
    (∀ o' ∈ (orders_complete sampleDb 1 1 ⟨8, some 123⟩ 50).db.orders,
       o'.id = 1 → o'.completed_date = some 50) ∧
    orders_complete sampleDb 1 1 ⟨8, some 123⟩ 50
      = orders_complete sampleDb 1 1 ⟨8, none⟩ 50 :=
  C4_payment_owner_unchecked_server_clock sampleDb 1 1 8 (some 123) 50
    ⟨1, 1, none, 3, none⟩ ⟨8, "Amex", "456", 9, 2⟩ rfl rfl

/-! ## Adding to a completed order: C3 -/

/-- Sample state for C3: customer 1's only order (id 1) is completed
(payment ref 7, completion date 2) and holds one line item (product 1);
products 1 and 2 exist. -/
def dbClosedOrder : DB :=
  { orders := [⟨1, 1, some 7, 1, some 2⟩],
    lineitems := [⟨1, 1, 1⟩],
    payments := [⟨7, "Visa", "123", 9, 1⟩],
    products :=
      [⟨1, "Kite", 1, 15, "flies", 60, 1, 1, "Pittsburgh", none⟩,
       ⟨2, "Saab", 2, 1297, "car", 2, 1, 2, "Vratsa", none⟩],
    categories := [⟨1, "Toys"⟩, ⟨2, "Auto"⟩],
    ratings := [],
    favorite_products := [] }

/-- C3: when the customer's only order is completed, the cart-add request
does not fail with a 400-class error: it answers 200, lazily creates a
fresh open order (id 2) that receives the new line item, and leaves the
completed order's line items untouched (still exactly one).  The repo's
own test (`test_prevent_add_to_closed_order` in tests/order.py) asserts an
HTTP 400 for this scenario, which the production cart path never
produces. -/
theorem C3_closed_order_add_not_rejected :
    (cart_post dbClosedOrder 1 2 6 2 2).status = 200 ∧
    ((cart_post dbClosedOrder 1 2 6 2 2).db.lineitems.filter
      (fun li => li.order == 1)).length = 1 ∧
    (cart_post dbClosedOrder 1 2 6 2 2).db.orders
      = [⟨1, 1, some 7, 1, some 2⟩, ⟨2, 1, none, 6, none⟩] ∧
    (cart_post dbClosedOrder 1 2 6 2 2).db.lineitems
      = [⟨1, 1, 1⟩, ⟨2, 2, 2⟩] := by
  decide

/-! ## The number_sold list filter: C5 -/

theorem applyOptFilter_resolvable {α : Type} {field : String}
    (hf : field ∈ productFieldNames) (oparam : Option α)
    (pred : α → Product → Bool) (ps : List Product) :
    applyOptFilter field oparam pred ps
      = .ok (match oparam with | none => ps | some v => ps.filter (pred v)) := by
  cases oparam with
  | none => rfl
  | some v => simp [applyOptFilter, hf]

/-- C5: any product-list request that supplies a `number_sold` parameter
raises `FieldError` instead of returning a filtered product list — the
`filter(number_sold__gte=...)` keyword cannot resolve, because
`number_sold` is a computed Python property of the model, not a stored
column.  No combination of the other parameters avoids the error. -/
theorem C5_number_sold_filter_raises
    (db : DB) (ps : ListParams) (n : Nat) (h : ps.number_sold = some n) :
    products_list db ps = .error .fieldError := by
  have hcon : "number_sold" ∉ productFieldNames := by decide
  have hns : ∀ l, applyOptFilter "number_sold" ps.number_sold
      (fun v p => decide (v ≤ number_sold db p.id)) l = .error .fieldError := by
    intro l
    simp [applyOptFilter, h, hcon]
  unfold products_list
  simp only
    [applyOptFilter_resolvable (show "store" ∈ productFieldNames by decide),
     applyOptFilter_resolvable (show "category" ∈ productFieldNames by decide),
     applyOptFilter_resolvable (show "price" ∈ productFieldNames by decide),
     applyOptFilter_resolvable (show "quantity" ∈ productFieldNames by decide),
     hns]
  cases ps.store_id <;> cases ps.sold_only <;>
    cases ps.category_id <;> cases ps.min_price <;>
    cases ps.max_price <;> cases ps.quantity <;>
    simp [Except.bind]

/-- C5 witness: the sample state contains sold products, yet a list
request asking for `number_sold ≥ 1` errors out. -/
theorem C5_number_sold_filter_raises_witness :
    products_list sampleDb
      ⟨none, none, none, none, none, some 1, none, none, false⟩
      = .error .fieldError :=
  C5_number_sold_filter_raises sampleDb
    ⟨none, none, none, none, none, some 1, none, none, false⟩ 1 rfl

/-! ## Derived fields: C6, C7 -/

/-- Sample state for C6: product 1 appears on two paid orders (1 and 2)
and on three line items of open orders (3 and 4). -/
def dbTwoSold : DB :=
  { orders :=
      [⟨1, 1, some 7, 1, some 2⟩, ⟨2, 2, some 8, 1, some 3⟩,
       ⟨3, 1, none, 4, none⟩, ⟨4, 3, none, 4, none⟩],
    lineitems := [⟨1, 1, 1⟩, ⟨2, 2, 1⟩, ⟨3, 3, 1⟩, ⟨4, 4, 1⟩, ⟨5, 3, 1⟩],
    payments := [⟨7, "Visa", "123", 9, 1⟩, ⟨8, "Amex", "456", 9, 2⟩],
    products := [⟨1, "Kite", 1, 15, "flies", 60, 1, 1, "Pittsburgh", none⟩],
    categories := [⟨1, "Toys"⟩],
    ratings := [],
    favorite_products := [] }

theorem bool_eq_of_true_iff (a b : Bool) (h : a = true ↔ b = true) : a = b := by
  revert h
  revert a b
  decide

/-- C6: the derived `number_sold` of a product equals the count of line
items that belong to an order with a non-null payment reference (the
spec-side counting predicate, stated with an existential over the order
table); in particular a product on two paid orders and three open-order
line items reports `number_sold` 2 — the open-order line items do not
contribute. -/
theorem C6_number_sold_counts_paid_line_items :
    (∀ db pid, number_sold db pid = specSoldCount db pid) ∧
    number_sold dbTwoSold 1 = 2 := by
  constructor
  · intro db pid
    unfold number_sold specSoldCount
    rw [List.countP_eq_length_filter]
    congr 1
    apply List.filter_congr
    intro li _
    apply bool_eq_of_true_iff
    simp [orderPaid, List.any_eq_true, Option.isSome_iff_ne_none]
  · decide

/-- C7: `average_rating` equals the arithmetic mean of the product's
rating rows when any exist and 0 when none do; the source's
division-by-zero guard (the caught `ZeroDivisionError`, `pyDiv` here)
makes the zero-ratings case return 0 instead of raising. -/
theorem C7_average_rating_is_guarded_mean :
    ∀ db pid, average_rating db pid = specAverageRating db pid := by
  intro db pid
  have hfold : ∀ rs : List ProductRating,
      rs.foldl (fun acc r => acc + r.rating) 0 = (rs.map (fun r => r.rating)).sum := by
    intro rs
    rw [List.sum_eq_foldl, List.foldl_map]
  have hcast : ∀ l : List Int, ((l.sum : Int) : Rat) = (l.map (Int.cast : Int → Rat)).sum := by
    intro l
    exact Int.cast_list_sum l
  unfold average_rating specAverageRating pyDiv
  by_cases h : (db.ratings.filter (fun r => r.product == pid)).length = 0
  · simp [h]
  · have hne : (((db.ratings.filter (fun r => r.product == pid)).length : Nat) : Rat) ≠ 0 := by
      exact_mod_cast h
    simp only [h, if_false, hne]
    simp [h, hne, hfold, hcast, List.map_map, Function.comp]
    rfl

/-! ## Product write-time validation: C8 -/

/-- A create request whose price exceeds the declared maximum of 17500
and whose quantity is negative. -/
def reqBadProduct : ProductCreateRequest :=
  ⟨"Yacht", 20000, "too big", -5, "Nashville", 1⟩

/-- C8: `Products.create` saves without running the model's declared
validators, so a request with price 20000 (beyond the declared 0–17500
bound) and quantity -5 (below the declared minimum 0) is accepted with
201 and the out-of-range row is persisted. -/
theorem C8_create_persists_out_of_range_values :
    (products_create sampleDb 1 reqBadProduct 10 7).status = 201 ∧
    (∃ p ∈ (products_create sampleDb 1 reqBadProduct 10 7).db.products,
       p.price = 20000 ∧ p.quantity = -5) ∧
    ¬ priceValidatorsHold 20000 ∧ ¬ quantityValidatorHolds (-5) := by
  decide

/-! ## Product likes: C9, C10 -/

/-- C9: for a user with no favorite rows, liking a product creates one
row (201); liking the same product again answers "already liked" with the
existing row's id, writes nothing, and exactly one `FavoriteProduct` row
for that (user, product) pair exists afterwards.  (The already-liked
response carries HTTP 200 in the source, not a 4xx conflict code.) -/
theorem C9_second_like_reports_already_liked
    (db : DB) (user pk f1 f2 : Nat) (product : Product)
    (hp : getSingle db.products (fun p => p.id == pk) = .ok product)
    (hnone : ∀ f ∈ db.favorite_products, f.user ≠ user) :
    (like_product db user pk f1).2 = .created ∧
    (like_product (like_product db user pk f1).1 user pk f2).2
      = .alreadyLiked f1 ∧
    (like_product (like_product db user pk f1).1 user pk f2).1
      = (like_product db user pk f1).1 ∧
    ((like_product (like_product db user pk f1).1 user pk f2).1.favorite_products.filter
      (fun f => f.user == user && f.product == pk)).length = 1 := by
  have hpid : product.id = pk := by
    have hfl := getSingle_eq_ok hp
    have hmem : product ∈ db.products.filter (fun p => p.id == pk) :=
      hfl ▸ List.mem_singleton.mpr rfl
    simpa using List.of_mem_filter hmem
  subst hpid
  have hfil : db.favorite_products.filter
      (fun f => f.user == user && f.product == product.id) = [] := by
    rw [List.filter_eq_nil_iff]
    intro f hf
    simp [hnone f hf]
  have hany : db.favorite_products.any (fun f => f.user == user) = false := by
    rw [List.any_eq_false]
    intro f hf
    simp [hnone f hf]
  have hr1 : like_product db user product.id f1
      = ({ db with favorite_products :=
            db.favorite_products ++ [⟨f1, user, product.id⟩] }, .created) := by
    simp [like_product, hp, hfil, favoriteInsert, hany]
  have hfil2 : (db.favorite_products ++ [(⟨f1, user, product.id⟩ : FavoriteProduct)]).filter
      (fun f => f.user == user && f.product == product.id)
      = [⟨f1, user, product.id⟩] := by
    rw [List.filter_append, hfil]
    simp
  have hr2 : like_product
      ({ db with favorite_products :=
          db.favorite_products ++ [⟨f1, user, product.id⟩] }) user product.id f2
      = ({ db with favorite_products :=
            db.favorite_products ++ [⟨f1, user, product.id⟩] }, .alreadyLiked f1) := by
    simp [like_product, hp, hfil2]
  rw [hr1]
  simp only [hr2]
  simp [hfil2]

/-- C9 witness: in the sample state (no favorites yet), user 1 likes
product 1 twice; the first call creates, the second reports already-liked
with the existing row id 1, and one row for the pair remains. -/
theorem C9_second_like_reports_already_liked_witness :
    (like_product sampleDb 1 1 1).2 = .created ∧
    (like_product (like_product sampleDb 1 1 1).1 1 1 2).2 = .alreadyLiked 1 ∧
    (like_product (like_product sampleDb 1 1 1).1 1 1 2).1
      = (like_product sampleDb 1 1 1).1 ∧
    ((like_product (like_product sampleDb 1 1 1).1 1 1 2).1.favorite_products.filter
      (fun f => f.user == 1 && f.product == 1)).length = 1 :=
  C9_second_like_reports_already_liked sampleDb 1 1 1 2
    ⟨1, "Kite", 1, 15, "flies", 60, 1, 1, "Pittsburgh", none⟩ rfl (by decide)

/-- Sample state for C10: user 1 already has a favorite row for
product 1. -/
def dbOneFavorite : DB :=
  { sampleDb with favorite_products := [⟨1, 1, 1⟩] }

/-- C10: the `OneToOneField` on `FavoriteProduct.user` is a database
uniqueness constraint on the user column, so a user who already has a
favorite row (for any product) cannot get a second row: liking a second,
distinct product passes the view's per-pair duplicate check, and the
insert then violates the one-to-one constraint (an `IntegrityError`
surfacing as a 500), leaving the table unchanged. -/
theorem C10_one_to_one_user_blocks_second_favorite
    (db : DB) (user pk2 f2 : Nat) (product2 : Product) (fav : FavoriteProduct)
    (hp : getSingle db.products (fun p => p.id == pk2) = .ok product2)
    (hfav : fav ∈ db.favorite_products) (hfu : fav.user = user)
    (hne : ∀ f ∈ db.favorite_products, f.user = user → f.product ≠ product2.id) :
    (like_product db user pk2 f2).2 = .integrityViolation ∧
    (like_product db user pk2 f2).1 = db := by
  have hfil : db.favorite_products.filter
      (fun f => f.user == user && f.product == product2.id) = [] := by
    rw [List.filter_eq_nil_iff]
    intro f hf
    by_cases hu : f.user = user
    · simp [hne f hf hu]
    · simp [hu]
  have hany : db.favorite_products.any (fun f => f.user == user) = true :=
    List.any_eq_true.mpr ⟨fav, hfav, by simp [hfu]⟩
  constructor <;> simp [like_product, hp, hfil, favoriteInsert, hany]

/-- C10 witness: user 1, who already favorites product 1, likes the
distinct product 2; the insert hits the one-to-one constraint and the
table is unchanged. -/
theorem C10_one_to_one_user_blocks_second_favorite_witness :
    (like_product dbOneFavorite 1 2 5).2 = .integrityViolation ∧
    (like_product dbOneFavorite 1 2 5).1 = dbOneFavorite :=
  C10_one_to_one_user_blocks_second_favorite dbOneFavorite 1 2 5
    ⟨2, "Saab", 2, 1297, "car", 2, 1, 2, "Vratsa", none⟩ ⟨1, 1, 1⟩
    rfl (by decide) rfl (by decide)

end Bangazon
